import Mathlib

/-!
Verification of the audio-pool and WebRTC device-selection helpers of
`src/scripts/example.js` (purecloud-embeddable-framework-example).

The JavaScript is embedded shallowly:

* An `HTMLAudioElement` together with the custom properties the script
  attaches to it (`inUse`, `startTime`, `safetyTimeout`) becomes the
  structure `AudioElem`.  The pool (`audioPool`) is a `List AudioElem`;
  JS aliasing of the element returned by `Array.prototype.find` is
  rendered by returning the index of the chosen slot and updating the
  list at that index.
* `Date.now()` is a `Nat` parameter `now`; `setTimeout` is modelled by
  recording the armed deadline in `safetyTimeout`, and the timer / media
  event callbacks become explicit functions on `AudioElem`.
* `navigator.mediaDevices.getUserMedia` is an oracle
  `gum : Option String → GumResult` (the argument is the exact
  device-id constraint, `none` for an unconstrained `{audio = true}`
  request); `enumerateDevices` responses are passed in as lists of
  `MediaDeviceInfo`.  Promise rejections are the `GumResult.err` case,
  synchronous JS exceptions are `Except.error`.
* DOM notification banners and `console` logging are out of scope (the
  spec's section 1 excludes UI notification HTML); observable
  notifications to the softphone and stream open/stop operations are
  recorded in an event list `List MEvent`.
-/

namespace PureCloudExample

/-! ## Audio pool data model -/

/-- Model of one pooled `HTMLAudioElement` together with the custom
properties the script attaches to it.  `hasOnEnded` / `hasOnError`
record whether the `onended` / `onerror` callbacks are installed (the
installed callbacks are always the release closures of `playSound`,
modelled separately as `onendedHandler` / `onerrorHandler`);
`safetyTimeout` records the armed `setTimeout` deadline, `none` when no
timer is pending. -/
structure AudioElem where
  inUse : Bool
  startTime : Option Nat
  ended : Bool
  paused : Bool
  src : String
  currentTime : Nat
  hasOnEnded : Bool
  hasOnError : Bool
  safetyTimeout : Option Nat
deriving Repr, DecidableEq

/-- Result of `new Audio()`: a fresh media element is paused, not
ended, with empty source, and carries none of the custom properties. -/
def newAudio : AudioElem :=
  { inUse := false
    startTime := none
    ended := false
    paused := true
    src := ""
    currentTime := 0
    hasOnEnded := false
    hasOnError := false
    safetyTimeout := none }

instance : Inhabited AudioElem := ⟨newAudio⟩

/-- Source constant `MAX_AUDIO_POOL_SIZE` (line 11). -/
def MAX_AUDIO_POOL_SIZE : Nat := 15

/-- Lines 61-80, `cleanupAudioElement`: clear the safety timer, remove
the `onended`/`onerror` listeners, pause, rewind, clear the source and
mark unused.  (The JS `if (!audio) return;` null guard cannot arise
here because the model passes elements by value.) -/
def cleanupAudioElement (audio : AudioElem) : AudioElem :=
  { audio with
    safetyTimeout := none
    hasOnEnded := false
    hasOnError := false
    paused := true
    currentTime := 0
    src := ""
    inUse := false
    startTime := none }

/-- Lines 126-128, `releaseAudioToPool`: releasing just cleans the
element up. -/
def releaseAudioToPool (audio : AudioElem) : AudioElem :=
  cleanupAudioElement audio

/-- Lines 40-56, `initializeAudioPool` with the pool size as a
parameter (the script always passes `MAX_AUDIO_POOL_SIZE`): a pool of
`n` fresh elements with `inUse = false`. -/
def initializeAudioPool (n : Nat) : List AudioElem :=
  List.replicate n newAudio

/-- JS predicate `a => !a.inUse` (line 87). -/
def isNotInUse (a : AudioElem) : Bool := !a.inUse

/-- JS predicate `a => a.ended || a.paused` (line 91). -/
def isEndedOrPaused (a : AudioElem) : Bool := a.ended || a.paused

/-- JS predicate `a => a.startTime && (now - a.startTime > 5000)`
(line 98).  A `startTime` of `0` is falsy in JS, hence the extra
`t ≠ 0` conjunct; JS subtraction below `0` is negative and therefore
not `> 5000`, which truncated `Nat` subtraction reproduces. -/
def isStale (now : Nat) (a : AudioElem) : Bool :=
  match a.startTime with
  | some t => decide (t ≠ 0) && decide (5000 < now - t)
  | none => false

/-- Model of `Array.prototype.find` returning the index of the first
match instead of an alias to the matching element. -/
def findIndex {α : Type} (p : α → Bool) : List α → Option Nat
  | [] => none
  | a :: as => if p a then some 0 else (findIndex p as).map (· + 1)

/-- Model of `Array.prototype.find` returning the first matching
element. -/
def findFirst {α : Type} (p : α → Bool) : List α → Option α
  | [] => none
  | a :: as => if p a then some a else findFirst p as

/-- Lines 118-119: `audio.inUse = true; audio.startTime = Date.now()`. -/
def markAudioInUse (now : Nat) (audio : AudioElem) : AudioElem :=
  { audio with inUse := true, startTime := some now }

/-- Lines 85-121, `getAudioFromPool`.  Returns the index of the chosen
slot in the returned pool.  Preference order of the source: first slot
not in use (no cleanup); else first slot that has ended or is paused
(cleaned up); else first slot whose playback started more than 5
seconds ago (cleaned up); else, if the pool is non-empty, slot 0 is
forcibly cleaned and reused; else a fresh element is created and, as on
line 111 (`audioPool.push(audio)`), appended to the pool.  The chosen
slot is finally marked in use with `startTime = now`. -/
def getAudioFromPool (now : Nat) (pool : List AudioElem) : Nat × List AudioElem :=
  match findIndex isNotInUse pool with
  | some i => (i, pool.set i (markAudioInUse now (pool.getD i newAudio)))
  | none =>
    match findIndex isEndedOrPaused pool with
    | some i => (i, pool.set i (markAudioInUse now (cleanupAudioElement (pool.getD i newAudio))))
    | none =>
      match findIndex (isStale now) pool with
      | some i => (i, pool.set i (markAudioInUse now (cleanupAudioElement (pool.getD i newAudio))))
      | none =>
        if 0 < pool.length then
          (0, pool.set 0 (markAudioInUse now (cleanupAudioElement (pool.getD 0 newAudio))))
        else
          (0, [markAudioInUse now newAudio])

/-- The closure `() => releaseAudioToPool(audio)` installed as
`audio.onended` on line 142. -/
def onendedHandler (audio : AudioElem) : AudioElem :=
  releaseAudioToPool audio

/-- The closure installed as `audio.onerror` on lines 143-146 (the
`console.error` is not observable in the model). -/
def onerrorHandler (audio : AudioElem) : AudioElem :=
  releaseAudioToPool audio

/-- The safety-timeout callback of lines 149-154: release only if the
element is still in use. -/
def safetyTimeoutHandler (audio : AudioElem) : AudioElem :=
  if audio.inUse then releaseAudioToPool audio else audio

/-- Lines 133-169, `playSound`.  `playOk` tells whether the
`audio.play()` promise resolves (`true`) or rejects, in which case the
`catch` of lines 162-165 releases the slot.  A falsy `url` (empty
string models JS `''`/`null`/`undefined`) is logged and `null` is
returned before any slot is touched.  On success the element starts
playing (`paused = false`, `ended = false`). -/
def playSound (url : String) (now : Nat) (playOk : Bool) (pool : List AudioElem) :
    Option Nat × List AudioElem :=
  if url = "" then (none, pool)
  else
    let acquired := getAudioFromPool now pool
    let i := acquired.1
    let pool1 := acquired.2
    let a := pool1.getD i newAudio
    let armed :=
      { a with
        hasOnEnded := true
        hasOnError := true
        safetyTimeout := some (now + 30000)
        src := url }
    if playOk then
      (some i, pool1.set i { armed with paused := false, ended := false })
    else
      (some i, pool1.set i (releaseAudioToPool armed))

/-! ## WebRTC device management data model -/

/-- One entry of a `navigator.mediaDevices.enumerateDevices()` result. -/
structure MediaDeviceInfo where
  deviceId : String
  kind : String
  label : String
deriving Repr, DecidableEq, Inhabited

/-- Outcome of one `getUserMedia` call.  `ok sid` means the promise
resolved with a stream whose first audio track reports
`getSettings().deviceId = sid` (`sid = ""` covers a missing track or a
falsy settings id); `err name` means the promise rejected with an error
of the given `name`. -/
inductive GumResult where
  | ok (settingsDeviceId : String)
  | err (name : String)
deriving Repr, DecidableEq

/-- Observable actions of the device manager: a device enumeration, a
stream opened under a constraint, a stream stopped again, and a status
report posted to the softphone (`notifyWebRTCStatus`, identified by its
status/error code). -/
inductive MEvent where
  | enumerated
  | openedStream (constraint : Option String)
  | stoppedStream
  | status (code : String)
deriving Repr, DecidableEq

/-- Module-level mutable device state of the script: lines 14-15
(`selectedAudioDeviceId = null`, `deviceAccessGranted = false`) plus
the two undeclared globals `selectedAudioInputDeviceId` /
`selectedAudioOutputDeviceId` written by the second
`initializeWebRTCDevices` (initially `undefined`, hence `none`). -/
structure DevState where
  selectedAudioDeviceId : Option String
  deviceAccessGranted : Bool
  selectedAudioInputDeviceId : Option String
  selectedAudioOutputDeviceId : Option String
deriving Repr, DecidableEq

/-- Initial device state at script load. -/
def initDevState : DevState :=
  { selectedAudioDeviceId := none
    deviceAccessGranted := false
    selectedAudioInputDeviceId := none
    selectedAudioOutputDeviceId := none }

/-- Lines 325-327: `deviceId ? {audio = {deviceId = {exact hm}}} :
{audio = true}`.  A falsy device id (absent or empty) yields the
unconstrained request `none`. -/
def constraintOf (deviceId : Option String) : Option String :=
  match deviceId with
  | some v => if v = "" then none else some v
  | none => none

/-- Lines 321-364, `testAudioDevice`.  Arguments: the `getUserMedia`
oracle, the current value of the global `selectedAudioDeviceId`, and
the `deviceId` argument.  Returns the resolved boolean, the new value
of `selectedAudioDeviceId` (line 337 stores the settings-reported id of
the opened track when it is truthy) and the emitted events.  On
rejection with a truthy `deviceId` the source re-invokes itself with
`null` (line 352); on rejection of the unconstrained request it reports
`DeviceAccessError` (lines 356-360) and resolves `false`. -/
def testAudioDevice (gum : Option String → GumResult) (sel : Option String) :
    Option String → Bool × Option String × List MEvent
  | none =>
    (match gum (constraintOf none) with
     | .ok sid =>
       (true, if sid = "" then sel else some sid,
         [.openedStream (constraintOf none), .stoppedStream])
     | .err _ => (false, sel, [.status "DeviceAccessError"]))
  | some v =>
    match gum (constraintOf (some v)) with
    | .ok sid =>
      (true, if sid = "" then sel else some sid,
        [.openedStream (constraintOf (some v)), .stoppedStream])
    | .err _ =>
      if v = "" then (false, sel, [.status "DeviceAccessError"])
      else testAudioDevice gum sel none
termination_by d => match d with | none => 0 | some _ => 1
decreasing_by simp

/-- JS predicate `d => d.deviceId && d.deviceId !== 'default' &&
d.deviceId !== ''` (lines 307-308, repeated on lines 509-510 and
518-519). -/
def isPreferredDevice (d : MediaDeviceInfo) : Bool :=
  d.deviceId != "" && d.deviceId != "default"

/-- The selection expression of lines 307-310 (and of lines 518-521 for
input devices): the first device with a populated, non-`'default'` id,
else the first device of the list.  Call sites guarantee the list is
non-empty; on `[]` the source would throw (see
`validateOrSelectDevice`). -/
def chooseDeviceId (audioDevices : List MediaDeviceInfo) : String :=
  match findFirst isPreferredDevice audioDevices with
  | some d => d.deviceId
  | none => (audioDevices.headD default).deviceId

/-- The output-device selection of lines 509-512; the trailing
`|| ''` maps a falsy first id to `''`. -/
def chooseOutputDeviceId (outputDevices : List MediaDeviceInfo) : String :=
  match findFirst isPreferredDevice outputDevices with
  | some d => d.deviceId
  | none =>
    let fallback := (outputDevices.headD default).deviceId
    if fallback = "" then "" else fallback

/-- JS expression `selectedAudioDeviceId && audioDevices.some(d =>
d.deviceId === selectedAudioDeviceId)` (lines 302-303 and 387-388). -/
def selPresent (sel : Option String) (audioDevices : List MediaDeviceInfo) : Bool :=
  match sel with
  | some v => v != "" && audioDevices.any (fun d => d.deviceId == v)
  | none => false

/-- Lines 300-316, `validateOrSelectDevice`.  If the current selection
is absent it commits the preference-rule choice to
`selectedAudioDeviceId` (line 310) and then validates it with
`testAudioDevice`.  When the list is empty, evaluating
`audioDevices[0].deviceId` on line 310 throws a `TypeError`, modelled
as `Except.error`; each caller's `catch` handles it. -/
def validateOrSelectDevice (gum : Option String → GumResult)
    (audioDevices : List MediaDeviceInfo) (sel : Option String) :
    Except String (Bool × Option String × List MEvent) :=
  let deviceExists := selPresent sel audioDevices
  if deviceExists then
    .ok (testAudioDevice gum sel sel)
  else if audioDevices.isEmpty then
    .error "TypeError"
  else
    let sel1 := some (chooseDeviceId audioDevices)
    .ok (testAudioDevice gum sel1 sel1)

/-- Lines 369-406, `updateDeviceList`.  With no permission the function
returns before enumerating anything (lines 370-373): state unchanged,
no events.  Otherwise it enumerates, filters the audio inputs, keeps or
re-selects the device via `validateOrSelectDevice`, and posts an
`updated` status.  A `TypeError` thrown by `validateOrSelectDevice`
skips the `updated` notification and is swallowed by the `catch` of
line 405. -/
def updateDeviceList (gum : Option String → GumResult)
    (enumDevices : List MediaDeviceInfo) (s : DevState) : DevState × List MEvent :=
  if !s.deviceAccessGranted then (s, [])
  else
    let audioDevices := enumDevices.filter (fun d => d.kind == "audioinput")
    if audioDevices.isEmpty then (s, [.enumerated])
    else if selPresent s.selectedAudioDeviceId audioDevices then
      (s, [.enumerated, .status "updated"])
    else
      match validateOrSelectDevice gum audioDevices s.selectedAudioDeviceId with
      | .ok r => ({ s with selectedAudioDeviceId := r.2.1 },
          [.enumerated] ++ r.2.2 ++ [.status "updated"])
      | .error _ => (s, [.enumerated])

/-- Lines 212-266, `handlePermissionGranted` (reachable only from the
first, shadowed `initializeWebRTCDevices`).  `trackSettingsId` is the
settings-reported device id of the granted stream's first audio track
(`""` for a missing track or falsy id).  Sets `deviceAccessGranted`,
stores the track's device id, enumerates, and validates or re-selects;
an empty input-device list throws (line 238), which the caller's
`catch` turns into `handlePermissionError`. -/
def handlePermissionGranted (gum : Option String → GumResult)
    (trackSettingsId : String) (enumDevices : List MediaDeviceInfo)
    (s : DevState) : DevState × List MEvent :=
  let s1 := { s with deviceAccessGranted := true }
  let s2 :=
    if trackSettingsId = "" then s1
    else { s1 with selectedAudioDeviceId := some trackSettingsId }
  let audioDevices := enumDevices.filter (fun d => d.kind == "audioinput")
  if audioDevices.isEmpty then
    (s2, [.stoppedStream, .enumerated, .status "error"])
  else
    match validateOrSelectDevice gum audioDevices s2.selectedAudioDeviceId with
    | .ok r => ({ s2 with selectedAudioDeviceId := r.2.1 },
        [.stoppedStream, .enumerated] ++ r.2.2 ++ [.status "ready", .enumerated, .status "deviceList"])
    | .error _ => (s2, [.stoppedStream, .enumerated, .status "error"])

/-- Lines 182-207: the first declaration of `initializeWebRTCDevices`.
Function hoisting makes the second declaration (lines 411-608) shadow
this one for every call in the script, so this version is dead code; it
is embedded to witness what the shadowed path would have done.
`gum none` models `getUserMedia({audio = true, video = false})`. -/
def initializeWebRTCDevices_v1 (gum : Option String → GumResult)
    (enumDevices : List MediaDeviceInfo) (s : DevState) : DevState × List MEvent :=
  match gum none with
  | .ok sid =>
    let r := handlePermissionGranted gum sid enumDevices s
    (r.1, [.status "initializing", .openedStream none] ++ r.2)
  | .err name => (s, [.status "initializing", .status name])

/-- JS condition of line 517: `!selectedAudioInputDeviceId ||
!inputDevices.some(d => d.deviceId === selectedAudioInputDeviceId)`. -/
def inputSelectionInvalid (v : Option String) (inputDevices : List MediaDeviceInfo) : Bool :=
  match v with
  | some x => x == "" || !(inputDevices.any (fun d => d.deviceId == x))
  | none => true

/-- Lines 411-608: the second declaration of `initializeWebRTCDevices`,
the one that actually runs (it shadows the first).  `enum1` is the
pre-permission enumeration, `enum2` the one after the permission grant.
It writes the undeclared globals `selectedAudioInputDeviceId` /
`selectedAudioOutputDeviceId` and, through `testAudioDevice` (line
526), possibly `selectedAudioDeviceId` — but never
`deviceAccessGranted`.  All `showDevice...` banners are collapsed into
`status` events. -/
def initializeWebRTCDevices (gum : Option String → GumResult)
    (enum1 enum2 : List MediaDeviceInfo) (s : DevState) : DevState × List MEvent :=
  let in1 := enum1.filter (fun d => d.kind == "audioinput")
  let out1 := enum1.filter (fun d => d.kind == "audiooutput")
  if in1.isEmpty && out1.isEmpty then
    (s, [.enumerated, .status "NoDevicesFound"])
  else
    match gum none with
    | .err name => (s, [.enumerated, .status name])
    | .ok sid =>
      let s1 :=
        if sid = "" then s
        else { s with selectedAudioInputDeviceId := some sid }
      let in2 := enum2.filter (fun d => d.kind == "audioinput")
      let out2 := enum2.filter (fun d => d.kind == "audiooutput")
      if in2.isEmpty then
        (s1, [.enumerated, .openedStream none, .stoppedStream, .enumerated,
              .status "NoMicrophoneFound"])
      else
        let s2 :=
          if out2.isEmpty then { s1 with selectedAudioOutputDeviceId := some "" }
          else { s1 with selectedAudioOutputDeviceId := some (chooseOutputDeviceId out2) }
        let s3 :=
          if inputSelectionInvalid s2.selectedAudioInputDeviceId in2 then
            { s2 with selectedAudioInputDeviceId := some (chooseDeviceId in2) }
          else s2
        let t := testAudioDevice gum s3.selectedAudioDeviceId s3.selectedAudioInputDeviceId
        let s4 := { s3 with selectedAudioDeviceId := t.2.1 }
        if t.1 then
          (s4, [.enumerated, .openedStream none, .stoppedStream, .enumerated]
            ++ t.2.2 ++ [.status "ready"])
        else
          (s4, [.enumerated, .openedStream none, .stoppedStream, .enumerated]
            ++ t.2.2 ++ [.status "MicrophoneAccessFailed"])

/-- Lines 1013-1046, `selectAudioDevice`.  A falsy id returns at once.
Otherwise the requested device is looked up in a fresh enumeration; if
present it is tested and, on a `true` resolution, committed (line
1032); if absent, `validateOrSelectDevice` re-selects (line 1042,
`TypeError` on an empty list lands in the `catch` of line 1045).
Returns the new `selectedAudioDeviceId` and the events. -/
def selectAudioDevice (gum : Option String → GumResult)
    (enumDevices : List MediaDeviceInfo) (deviceId : String)
    (sel : Option String) : Option String × List MEvent :=
  if deviceId = "" then (sel, [])
  else
    let audioDevices := enumDevices.filter (fun d => d.kind == "audioinput")
    if audioDevices.any (fun d => d.deviceId == deviceId) then
      let t := testAudioDevice gum sel (some deviceId)
      if t.1 then (some deviceId, [.enumerated] ++ t.2.2 ++ [.status "ready"])
      else (t.2.1, [.enumerated] ++ t.2.2)
    else
      match validateOrSelectDevice gum audioDevices sel with
      | .ok r => (r.2.1, [.enumerated] ++ r.2.2)
      | .error _ => (sel, [.enumerated])

/-- Browser-consistency assumption used for the claims that speak about
membership of the committed id in the enumerated list: any truthy
settings-reported device id of a successfully opened audio-input stream
belongs to the enumerated audio-input devices. -/
def settingsReported (gum : Option String → GumResult)
    (audioDevices : List MediaDeviceInfo) : Prop :=
  ∀ c sid, gum c = .ok sid → sid ≠ "" → sid ∈ audioDevices.map (fun d => d.deviceId)

/-! ## Page lifetime as an event system

The handlers that the shipped script actually wires up and that touch
the device state: `DOMContentLoaded` runs the (second, live)
`initializeWebRTCDevices`; a `devicechange` event runs
`updateDeviceList`; a `selectAudioDevice` window message with a truthy
device id runs `selectAudioDevice`; the troubleshooting-guide retry
button runs `initializeWebRTCDevices` again.  Each event carries the
browser's oracle responses at that moment. -/

/-- One externally triggered handler invocation of the shipped page. -/
inductive PageEvent where
  | domLoaded (enum1 enum2 : List MediaDeviceInfo) (gum : Option String → GumResult)
  | deviceChange (devices : List MediaDeviceInfo) (gum : Option String → GumResult)
  | selectDeviceMessage (deviceId : String) (devices : List MediaDeviceInfo)
      (gum : Option String → GumResult)
  | retryDetection (enum1 enum2 : List MediaDeviceInfo) (gum : Option String → GumResult)

/-- Effect of one page event on the device state. -/
def pageStep (e : PageEvent) (s : DevState) : DevState × List MEvent :=
  match e with
  | .domLoaded enum1 enum2 gum => initializeWebRTCDevices gum enum1 enum2 s
  | .retryDetection enum1 enum2 gum => initializeWebRTCDevices gum enum1 enum2 s
  | .deviceChange devices gum => updateDeviceList gum devices s
  | .selectDeviceMessage deviceId devices gum =>
    let r := selectAudioDevice gum devices deviceId s.selectedAudioDeviceId
    ({ s with selectedAudioDeviceId := r.1 }, r.2)

/-- Device state after a sequence of page events, starting from the
script-load state. -/
def pageRun (events : List PageEvent) : DevState :=
  events.foldl (fun s e => (pageStep e s).1) initDevState

/-! ## Inbound window-message handling -/

/-- Sound constants of lines 2-7.  (`SOUNDS.NOTIFICATION` etc.) -/
def SOUND_RING : String := "/sounds/ring.mp3"

/-- Sound constant `SOUNDS.NOTIFICATION`. -/
def SOUND_NOTIFY : String := "/sounds/notification.mp3"

/-- Sound constant `SOUNDS.MESSAGE`. -/
def SOUND_MESSAGE : String := "/sounds/message.mp3"

/-- Sound constant `SOUNDS.VOICEMAIL`. -/
def SOUND_VOICEMAIL : String := "/sounds/voicemail.mp3"

/-- The `interaction.old` object (only its `state` is read). -/
structure InteractionOld where
  state : String
deriving Repr, DecidableEq

/-- The `interaction` payload read by `handleInteractionSound`. -/
structure Interaction where
  state : String
  type : String
  old : Option InteractionOld
deriving Repr, DecidableEq

/-- The `message.data` fields the handler reads.  `none` models an
absent (`undefined`) property. -/
structure MsgData where
  searchString : Option String
  deviceId : Option String
  interaction : Option Interaction
deriving Repr, DecidableEq

/-- A parsed inbound message object.  `data = none` models a message
without a `data` property. -/
structure InMessage where
  type : String
  data : Option MsgData
deriving Repr, DecidableEq

/-- Outcome of `JSON.parse(event.data)`: a truthy object, a falsy value
(`null` etc., skipped by the `if (message)` guard of line 1225), or a
thrown `SyntaxError`. -/
inductive ParseOutcome where
  | ok (m : InMessage)
  | nullish
  | fail (e : String)
deriving Repr, DecidableEq

/-- Observable DOM / audio / device effects of dispatching one inbound
message. -/
inductive PageEffect where
  | setField (fieldId : String) (value : String)
  | played (url : String)
  | setSearchText (text : String)
  | contactSearchSent
  | selectDevice (deviceId : String)
deriving Repr, DecidableEq

/-- Lines 1150-1168, `handleInteractionSound`: on a newly alerting
interaction, play the sound matching the interaction type. -/
def handleInteractionSound (m : InMessage) : List PageEffect :=
  match m.data with
  | none => []
  | some d =>
    match d.interaction with
    | none => []
    | some i =>
      if i.state == "alerting"
          && (match i.old with | none => true | some o => o.state != "alerting") then
        if i.type == "call" then [.played SOUND_RING]
        else if i.type == "message" then [.played SOUND_MESSAGE]
        else if i.type == "voicemail" then [.played SOUND_VOICEMAIL]
        else [.played SOUND_NOTIFY]
      else []

/-- The dispatch of lines 1226-1246 (the body of the `try` block after
a successful, truthy parse).  `raw` is the original `event.data` string
written into the payload fields.  The only synchronous throw site
reachable here is `message.data.searchString` when `message.data` is
`undefined` (line 1242); the nested `JSON.parse` inside
`sendContactSearch` is abstracted into the `contactSearchSent` effect.
JS coerces an absent `searchString` to the string `"undefined"`. -/
def dispatchMessage (raw : String) (m : InMessage) : Except String (List PageEffect) :=
  if m.type == "screenPop" then
    .ok [.setField "screenPopPayload" raw, .played SOUND_RING]
  else if m.type == "processCallLog" then
    .ok [.setField "processCallLogPayLoad" raw]
  else if m.type == "openCallLog" then
    .ok [.setField "openCallLogPayLoad" raw]
  else if m.type == "interactionSubscription" then
    .ok ([.setField "interactionSubscriptionPayload" raw] ++ handleInteractionSound m)
  else if m.type == "userActionSubscription" then
    .ok [.setField "userActionSubscriptionPayload" raw]
  else if m.type == "notificationSubscription" then
    .ok [.setField "notificationSubscriptionPayload" raw, .played SOUND_NOTIFY]
  else if m.type == "contactSearch" then
    match m.data with
    | none => .error "TypeError"
    | some d =>
      let sstr := match d.searchString with | some v => v | none => "undefined"
      .ok [.setSearchText (": " ++ sstr), .contactSearchSent]
  else if m.type == "selectAudioDevice" then
    match m.data with
    | none => .ok []
    | some d =>
      match d.deviceId with
      | some v => if v == "" then .ok [] else .ok [.selectDevice v]
      | none => .ok []
  else
    .ok []

/-- Accumulated observable state of the message listener: the effects
applied so far and the number of `console.error('Error processing
message', e)` logs from the `catch` of lines 1248-1250. -/
structure MsgHandlerState where
  effects : List PageEffect
  errorsLogged : Nat
deriving Repr, DecidableEq

/-- Lines 1221-1252: the window `message` listener installed by
`setupMessageHandling`.  The whole parse-and-dispatch body sits in a
`try`; any exception is caught and logged, so the listener itself never
throws (it is a total function on the model state). -/
def handleWindowMessage (parse : String → ParseOutcome) (raw : String)
    (st : MsgHandlerState) : MsgHandlerState :=
  match parse raw with
  | .fail _ => { st with errorsLogged := st.errorsLogged + 1 }
  | .nullish => st
  | .ok m =>
    match dispatchMessage raw m with
    | .ok effs => { st with effects := st.effects ++ effs }
    | .error _ => { st with errorsLogged := st.errorsLogged + 1 }

/-- Processing of a whole sequence of inbound messages by the
listener. -/
def processMessages (parse : String → ParseOutcome) (raws : List String)
    (st : MsgHandlerState) : MsgHandlerState :=
  raws.foldl (fun s r => handleWindowMessage parse r s) st

/-! ## Helper lemmas -/

theorem findIndex_none_iff {α : Type} {p : α → Bool} {l : List α} :
    findIndex p l = none ↔ ∀ a ∈ l, p a = false := by
  induction l with
  | nil => simp [findIndex]
  | cons a as ih =>
    by_cases h : p a = true
    · simp [findIndex, h]
    · simp only [Bool.not_eq_true] at h
      simp [findIndex, h, ih]

theorem findIndex_some_spec {α : Type} {p : α → Bool} {l : List α} {i : Nat} (d : α)
    (h : findIndex p l = some i) :
    i < l.length ∧ p (l.getD i d) = true ∧ ∀ j, j < i → p (l.getD j d) = false := by
  induction l generalizing i with
  | nil => simp [findIndex] at h
  | cons a as ih =>
    by_cases hp : p a = true
    · simp [findIndex, hp] at h
      subst h
      exact ⟨Nat.succ_pos _, hp, fun j hj => absurd hj (Nat.not_lt_zero j)⟩
    · simp only [Bool.not_eq_true] at hp
      simp [findIndex, hp] at h
      obtain ⟨i', hi', rfl⟩ := h
      obtain ⟨h1, h2, h3⟩ := ih hi'
      refine ⟨Nat.succ_lt_succ h1, h2, ?_⟩
      intro j hj
      cases j with
      | zero => simpa using hp
      | succ k => exact h3 k (Nat.lt_of_succ_lt_succ hj)

theorem findIndex_eq_some {α : Type} {p : α → Bool} {l : List α} {i : Nat} (d : α)
    (h1 : i < l.length) (h2 : p (l.getD i d) = true)
    (h3 : ∀ j, j < i → p (l.getD j d) = false) :
    findIndex p l = some i := by
  induction l generalizing i with
  | nil => simp at h1
  | cons a as ih =>
    cases i with
    | zero => simp_all [findIndex]
    | succ k =>
      have ha : p a = false := by simpa using h3 0 (Nat.succ_pos k)
      have : findIndex p as = some k :=
        ih (Nat.lt_of_succ_lt_succ h1) (by simpa using h2)
          (fun j hj => by simpa using h3 (j + 1) (Nat.succ_lt_succ hj))
      simp [findIndex, ha, this]

theorem findFirst_none_iff {α : Type} {p : α → Bool} {l : List α} :
    findFirst p l = none ↔ ∀ a ∈ l, p a = false := by
  induction l with
  | nil => simp [findFirst]
  | cons a as ih =>
    by_cases h : p a = true
    · simp [findFirst, h]
    · simp only [Bool.not_eq_true] at h
      simp [findFirst, h, ih]

theorem findFirst_some_spec {α : Type} {p : α → Bool} {l : List α} {a : α}
    (h : findFirst p l = some a) : a ∈ l ∧ p a = true := by
  induction l with
  | nil => simp [findFirst] at h
  | cons b bs ih =>
    by_cases hb : p b = true
    · simp [findFirst, hb] at h
      subst h
      exact ⟨List.mem_cons_self _ _, hb⟩
    · simp only [Bool.not_eq_true] at hb
      simp [findFirst, hb] at h
      obtain ⟨hm, hp⟩ := ih h
      exact ⟨List.mem_cons_of_mem _ hm, hp⟩

theorem findFirst_eq_some {α : Type} {p : α → Bool} {l : List α} {i : Nat} (d : α)
    (h1 : i < l.length) (h2 : p (l.getD i d) = true)
    (h3 : ∀ j, j < i → p (l.getD j d) = false) :
    findFirst p l = some (l.getD i d) := by
  induction l generalizing i with
  | nil => simp at h1
  | cons a as ih =>
    cases i with
    | zero => simp_all [findFirst]
    | succ k =>
      have ha : p a = false := by simpa using h3 0 (Nat.succ_pos k)
      have : findFirst p as = some (as.getD k d) :=
        ih (Nat.lt_of_succ_lt_succ h1) (by simpa using h2)
          (fun j hj => by simpa using h3 (j + 1) (Nat.succ_lt_succ hj))
      simp [findFirst, ha, this]

theorem chooseDeviceId_mem {audioDevices : List MediaDeviceInfo}
    (h : audioDevices ≠ []) :
    chooseDeviceId audioDevices ∈ audioDevices.map (fun d => d.deviceId) := by
  unfold chooseDeviceId
  cases hf : findFirst isPreferredDevice audioDevices with
  | some d =>
    exact List.mem_map_of_mem _ (findFirst_some_spec hf).1
  | none =>
    cases audioDevices with
    | nil => exact absurd rfl h
    | cons a as => exact List.mem_map_of_mem _ (List.mem_cons_self a as)

theorem getAudioFromPool_lt (now : Nat) (pool : List AudioElem) :
    (getAudioFromPool now pool).1 < (getAudioFromPool now pool).2.length := by
  unfold getAudioFromPool
  cases h1 : findIndex isNotInUse pool with
  | some i => simpa using (findIndex_some_spec newAudio h1).1
  | none =>
    cases h2 : findIndex isEndedOrPaused pool with
    | some i => simpa using (findIndex_some_spec newAudio h2).1
    | none =>
      cases h3 : findIndex (isStale now) pool with
      | some i => simpa using (findIndex_some_spec newAudio h3).1
      | none =>
        by_cases hlen : 0 < pool.length
        · simp [hlen]
        · simp [hlen]

theorem any_deviceId_eq_iff {l : List MediaDeviceInfo} {x : String} :
    l.any (fun d => d.deviceId == x) = true ↔ x ∈ l.map (fun d => d.deviceId) := by
  simp only [List.any_eq_true, List.mem_map, beq_iff_eq]

theorem selPresent_nil (sel : Option String) : selPresent sel [] = false := by
  cases sel <;> simp [selPresent]

theorem getAudioFromPool_marks (now : Nat) (pool : List AudioElem) :
    ((getAudioFromPool now pool).2.getD (getAudioFromPool now pool).1 newAudio).inUse = true ∧
    ((getAudioFromPool now pool).2.getD (getAudioFromPool now pool).1 newAudio).startTime
      = some now := by
  unfold getAudioFromPool
  cases h1 : findIndex isNotInUse pool with
  | some i =>
    have hi := (findIndex_some_spec newAudio h1).1
    simp [List.getD, List.getElem?_set, hi, markAudioInUse]
  | none =>
    cases h2 : findIndex isEndedOrPaused pool with
    | some i =>
      have hi := (findIndex_some_spec newAudio h2).1
      simp [List.getD, List.getElem?_set, hi, markAudioInUse]
    | none =>
      cases h3 : findIndex (isStale now) pool with
      | some i =>
        have hi := (findIndex_some_spec newAudio h3).1
        simp [List.getD, List.getElem?_set, hi, markAudioInUse]
      | none =>
        by_cases hlen : 0 < pool.length
        · simp [hlen, List.getD, List.getElem?_set, markAudioInUse]
        · simp [hlen, List.getD, markAudioInUse]

theorem testAudioDevice_false_sel (gum : Option String → GumResult)
    (sel : Option String) (deviceId : Option String)
    (h : (testAudioDevice gum sel deviceId).1 = false) :
    (testAudioDevice gum sel deviceId).2.1 = sel := by
  cases deviceId with
  | none =>
    cases hg : gum (constraintOf none) <;> simp [testAudioDevice, hg] at h ⊢
  | some v =>
    cases hg : gum (constraintOf (some v)) with
    | ok sid => simp [testAudioDevice, hg] at h
    | err name =>
      by_cases hv : v = ""
      · subst hv; simp [testAudioDevice, hg]
      · simp only [testAudioDevice, hg, hv, if_neg] at h ⊢
        cases hg2 : gum (constraintOf none) <;> simp [testAudioDevice, hg2] at h ⊢

theorem testAudioDevice_sel_cases (gum : Option String → GumResult)
    (sel : Option String) (deviceId : Option String) :
    (testAudioDevice gum sel deviceId).2.1 = sel ∨
    ∃ c sid, gum c = .ok sid ∧ sid ≠ "" ∧
      (testAudioDevice gum sel deviceId).2.1 = some sid := by
  cases deviceId with
  | none =>
    cases hg : gum (constraintOf none) with
    | ok sid =>
      by_cases hs : sid = ""
      · left; simp [testAudioDevice, hg, hs]
      · right; exact ⟨constraintOf none, sid, hg, hs, by simp [testAudioDevice, hg, hs]⟩
    | err name => left; simp [testAudioDevice, hg]
  | some v =>
    cases hg : gum (constraintOf (some v)) with
    | ok sid =>
      by_cases hs : sid = ""
      · left; simp [testAudioDevice, hg, hs]
      · right; exact ⟨constraintOf (some v), sid, hg, hs, by simp [testAudioDevice, hg, hs]⟩
    | err name =>
      by_cases hv : v = ""
      · subst hv; left; simp [testAudioDevice, hg]
      · simp only [testAudioDevice, hg, hv, if_neg]
        cases hg2 : gum (constraintOf none) with
        | ok sid =>
          by_cases hs : sid = ""
          · left; simp [testAudioDevice, hg2, hs]
          · right; exact ⟨constraintOf none, sid, hg2, hs, by simp [testAudioDevice, hg2, hs]⟩
        | err name2 => left; simp [testAudioDevice, hg2]

/-! ## Claim theorems -/

/-- C8: after release (`releaseAudioToPool` / `cleanupAudioElement`)
the slot has an empty source, is marked not-in-use with its start time
cleared, has playback stopped (`paused`) with position reset to `0`,
has its end and error handlers cleared, and has no safety timer still
armed. -/
theorem c8_release_resets_slot (audio : AudioElem) :
    (releaseAudioToPool audio).src = "" ∧
    (releaseAudioToPool audio).inUse = false ∧
    (releaseAudioToPool audio).startTime = none ∧
    (releaseAudioToPool audio).paused = true ∧
    (releaseAudioToPool audio).currentTime = 0 ∧
    (releaseAudioToPool audio).hasOnEnded = false ∧
    (releaseAudioToPool audio).hasOnError = false ∧
    (releaseAudioToPool audio).safetyTimeout = none ∧
    releaseAudioToPool audio = cleanupAudioElement audio :=
  ⟨rfl, rfl, rfl, rfl, rfl, rfl, rfl, rfl, rfl⟩

/-- C1 counterexample: the claim says that on an empty pool a new
one-off handle is allocated outside the pool, but line 111
(`audioPool.push(audio)`) pushes the fresh handle into the pool: after
an acquisition on the empty pool, the pool is no longer empty and its
only element is exactly the returned, freshly acquired handle. -/
theorem c1_counterexample :
    (getAudioFromPool 1000 []).2 ≠ [] ∧
    (getAudioFromPool 1000 []).2 = [markAudioInUse 1000 newAudio] := by
  constructor
  · decide
  · rfl

/-- C1 (amended): `getAudioFromPool` always returns a slot of the
resulting pool, marked in use with its start time set, chosen by the
preference order of the source: the first unused slot (taken without
cleanup); else the first slot that has ended or is paused; else the
first slot whose playback started more than 5 seconds ago; else slot 0
is forcibly reclaimed; and on an empty pool a fresh handle is created
and appended to the pool (not kept outside it). -/
theorem c1_acquire_preference (now : Nat) (pool : List AudioElem) :
    ((getAudioFromPool now pool).1 < (getAudioFromPool now pool).2.length ∧
     ((getAudioFromPool now pool).2.getD (getAudioFromPool now pool).1 newAudio).inUse = true ∧
     ((getAudioFromPool now pool).2.getD (getAudioFromPool now pool).1 newAudio).startTime
       = some now) ∧
    (∀ i, i < pool.length → isNotInUse (pool.getD i newAudio) = true →
      (∀ j, j < i → isNotInUse (pool.getD j newAudio) = false) →
      getAudioFromPool now pool
        = (i, pool.set i (markAudioInUse now (pool.getD i newAudio)))) ∧
    ((∀ a ∈ pool, isNotInUse a = false) →
      ∀ i, i < pool.length → isEndedOrPaused (pool.getD i newAudio) = true →
      (∀ j, j < i → isEndedOrPaused (pool.getD j newAudio) = false) →
      getAudioFromPool now pool
        = (i, pool.set i (markAudioInUse now (cleanupAudioElement (pool.getD i newAudio))))) ∧
    ((∀ a ∈ pool, isNotInUse a = false) → (∀ a ∈ pool, isEndedOrPaused a = false) →
      ∀ i, i < pool.length → isStale now (pool.getD i newAudio) = true →
      (∀ j, j < i → isStale now (pool.getD j newAudio) = false) →
      getAudioFromPool now pool
        = (i, pool.set i (markAudioInUse now (cleanupAudioElement (pool.getD i newAudio))))) ∧
    ((∀ a ∈ pool, isNotInUse a = false) → (∀ a ∈ pool, isEndedOrPaused a = false) →
      (∀ a ∈ pool, isStale now a = false) → pool ≠ [] →
      getAudioFromPool now pool
        = (0, pool.set 0 (markAudioInUse now (cleanupAudioElement (pool.getD 0 newAudio))))) ∧
    (pool = [] → getAudioFromPool now pool = (0, [markAudioInUse now newAudio])) := by
  refine ⟨?_, ?_, ?_, ?_, ?_, ?_⟩
  · -- the returned index is a slot of the new pool, in use with start time set
    exact ⟨getAudioFromPool_lt now pool, (getAudioFromPool_marks now pool).1,
      (getAudioFromPool_marks now pool).2⟩
  · -- an unused slot exists: the first one is taken, without cleanup
    intro i hi hp hmin
    have h1 : findIndex isNotInUse pool = some i := findIndex_eq_some newAudio hi hp hmin
    unfold getAudioFromPool
    rw [h1]
  · -- no unused slot: the first ended-or-paused slot is cleaned and reused
    intro hall i hi hp hmin
    have h1 : findIndex isNotInUse pool = none := findIndex_none_iff.mpr hall
    have h2 : findIndex isEndedOrPaused pool = some i := findIndex_eq_some newAudio hi hp hmin
    unfold getAudioFromPool
    rw [h1, h2]
  · -- else the first stale slot (startTime more than 5000 ms ago)
    intro hall1 hall2 i hi hp hmin
    have h1 : findIndex isNotInUse pool = none := findIndex_none_iff.mpr hall1
    have h2 : findIndex isEndedOrPaused pool = none := findIndex_none_iff.mpr hall2
    have h3 : findIndex (isStale now) pool = some i := findIndex_eq_some newAudio hi hp hmin
    unfold getAudioFromPool
    rw [h1, h2, h3]
  · -- else slot 0 is forcibly reclaimed
    intro hall1 hall2 hall3 hne
    have h1 : findIndex isNotInUse pool = none := findIndex_none_iff.mpr hall1
    have h2 : findIndex isEndedOrPaused pool = none := findIndex_none_iff.mpr hall2
    have h3 : findIndex (isStale now) pool = none := findIndex_none_iff.mpr hall3
    have hlen : 0 < pool.length := List.length_pos.mpr hne
    unfold getAudioFromPool
    rw [h1, h2, h3, if_pos hlen]
  · -- empty pool: a fresh handle is created and appended
    intro h
    subst h
    rfl

/-- C1 witness: on a fresh pool of two unused elements, acquisition at
time 7 takes slot 0 (the first unused slot) without cleanup. -/
theorem c1_acquire_preference_witness :
    getAudioFromPool 7 (initializeAudioPool 2)
      = (0, (initializeAudioPool 2).set 0
          (markAudioInUse 7 ((initializeAudioPool 2).getD 0 newAudio))) :=
  (c1_acquire_preference 7 (initializeAudioPool 2)).2.1 0 (by decide) (by decide)
    (fun j hj => absurd hj (Nat.not_lt_zero j))

/-- C6: for every non-empty url, `playSound` acquires a slot, attaches
end and error handlers that release the slot, arms a 30-second safety
timer that force-releases the slot only if it is still in use, sets the
slot's source to the url and starts playback, and releases the slot
immediately if playback start fails; a missing url is logged and no
slot is acquired or left in use (the pool is returned unchanged);
neither case throws (`playSound` is a total function). -/
theorem c6_playSound (url : String) (now : Nat) (playOk : Bool) (pool : List AudioElem) :
    (url = "" → playSound url now playOk pool = (none, pool)) ∧
    (url ≠ "" →
      ∃ i, (playSound url now playOk pool).1 = some i ∧
        i < (playSound url now playOk pool).2.length ∧
        (playOk = true →
          ((playSound url now playOk pool).2.getD i newAudio).hasOnEnded = true ∧
          ((playSound url now playOk pool).2.getD i newAudio).hasOnError = true ∧
          ((playSound url now playOk pool).2.getD i newAudio).safetyTimeout
            = some (now + 30000) ∧
          ((playSound url now playOk pool).2.getD i newAudio).src = url ∧
          ((playSound url now playOk pool).2.getD i newAudio).paused = false ∧
          ((playSound url now playOk pool).2.getD i newAudio).inUse = true ∧
          ((playSound url now playOk pool).2.getD i newAudio).startTime = some now) ∧
        (playOk = false →
          ((playSound url now playOk pool).2.getD i newAudio).inUse = false ∧
          ((playSound url now playOk pool).2.getD i newAudio).src = "" ∧
          ((playSound url now playOk pool).2.getD i newAudio).safetyTimeout = none ∧
          ((playSound url now playOk pool).2.getD i newAudio).hasOnEnded = false ∧
          ((playSound url now playOk pool).2.getD i newAudio).hasOnError = false)) ∧
    (∀ a : AudioElem, onendedHandler a = releaseAudioToPool a) ∧
    (∀ a : AudioElem, onerrorHandler a = releaseAudioToPool a) ∧
    (∀ a : AudioElem, a.inUse = true → safetyTimeoutHandler a = releaseAudioToPool a) ∧
    (∀ a : AudioElem, a.inUse = false → safetyTimeoutHandler a = a) := by
  refine ⟨?_, ?_, fun a => rfl, fun a => rfl, ?_, ?_⟩
  · intro h
    simp [playSound, h]
  · intro h
    refine ⟨(getAudioFromPool now pool).1, ?_, ?_, ?_, ?_⟩
    · cases playOk <;> simp [playSound, h]
    · have := getAudioFromPool_lt now pool
      cases playOk <;> simpa [playSound, h] using this
    · intro hok
      subst hok
      have hlt := getAudioFromPool_lt now pool
      have hm := getAudioFromPool_marks now pool
      simp only [List.getD, List.get?_eq_getElem?, List.getElem?_eq_getElem, hlt,
        Option.getD_some] at hm
      simp [playSound, h, List.getD, List.getElem?_set, hlt, hm.1, hm.2]
    · intro hko
      subst hko
      have hlt := getAudioFromPool_lt now pool
      simp [playSound, h, List.getD, List.getElem?_set, hlt, releaseAudioToPool,
        cleanupAudioElement]
  · intro a ha
    simp [safetyTimeoutHandler, ha]
  · intro a ha
    simp [safetyTimeoutHandler, ha]

/-- C6 witness: playing a concrete url at time 5 on a fresh two-slot
pool arms the slot as described, and the empty url leaves the pool
untouched. -/
theorem c6_playSound_witness :
    playSound "" 5 true (initializeAudioPool 2) = (none, initializeAudioPool 2) ∧
    ∃ i, (playSound "/sounds/ring.mp3" 5 true (initializeAudioPool 2)).1 = some i :=
  ⟨(c6_playSound "" 5 true (initializeAudioPool 2)).1 rfl,
    ((c6_playSound "/sounds/ring.mp3" 5 true (initializeAudioPool 2)).2.1
      (by decide)).imp (fun i hi => hi.1)⟩

/-- C7: with a pool of size 2, after three sequential `playSound` calls
during which no end event, error event, or safety timer has fired (so
both slots are still in use and playing, `playOk = true`, and no
release has happened), the third call still returns one of the two
pooled slots — index `0` or `1` — and the pool is not grown; nothing
throws. -/
theorem c7_third_play_reuses_slot (t1 t2 t3 : Nat) (u1 u2 u3 : String)
    (h1 : u1 ≠ "") (h2 : u2 ≠ "") (h3 : u3 ≠ "") :
    ∃ i, (playSound u3 t3 true
        (playSound u2 t2 true (playSound u1 t1 true (initializeAudioPool 2)).2).2).1
        = some i ∧
      i < 2 ∧
      (playSound u3 t3 true
        (playSound u2 t2 true (playSound u1 t1 true (initializeAudioPool 2)).2).2).2.length
        = 2 := by
  have e1 : playSound u1 t1 true (initializeAudioPool 2) =
      (some 0,
        [⟨true, some t1, false, false, u1, 0, true, true, some (t1 + 30000)⟩, newAudio]) := by
    simp [playSound, h1, getAudioFromPool, findIndex, isNotInUse, initializeAudioPool,
      List.replicate, markAudioInUse, newAudio]
  have e2 : playSound u2 t2 true
      [⟨true, some t1, false, false, u1, 0, true, true, some (t1 + 30000)⟩, newAudio] =
      (some 1,
        [⟨true, some t1, false, false, u1, 0, true, true, some (t1 + 30000)⟩,
         ⟨true, some t2, false, false, u2, 0, true, true, some (t2 + 30000)⟩]) := by
    simp [playSound, h2, getAudioFromPool, findIndex, isNotInUse, markAudioInUse, newAudio]
  rw [e1, e2]
  cases hA : isStale t3 ⟨true, some t1, false, false, u1, 0, true, true, some (t1 + 30000)⟩ with
  | true =>
    refine ⟨0, ?_, by omega, ?_⟩ <;>
      simp [playSound, h3, getAudioFromPool, findIndex, isNotInUse, isEndedOrPaused, hA]
  | false =>
    cases hB : isStale t3 ⟨true, some t2, false, false, u2, 0, true, true, some (t2 + 30000)⟩ with
    | true =>
      refine ⟨1, ?_, by omega, ?_⟩ <;>
        simp [playSound, h3, getAudioFromPool, findIndex, isNotInUse, isEndedOrPaused, hA, hB]
    | false =>
      refine ⟨0, ?_, by omega, ?_⟩ <;>
        simp [playSound, h3, getAudioFromPool, findIndex, isNotInUse, isEndedOrPaused, hA, hB]

/-- C7 witness: three plays at times 0, 1, 2 with concrete urls; the
third call reuses slot 0. -/
theorem c7_third_play_reuses_slot_witness :
    ∃ i, (playSound "c" 2 true
        (playSound "b" 1 true (playSound "a" 0 true (initializeAudioPool 2)).2).2).1
        = some i ∧
      i < 2 ∧
      (playSound "c" 2 true
        (playSound "b" 1 true (playSound "a" 0 true (initializeAudioPool 2)).2).2).2.length
        = 2 :=
  c7_third_play_reuses_slot 0 1 2 "a" "b" "c" (by decide) (by decide) (by decide)

/-- C9: whenever a device is selected from a non-empty list of
audio-input devices (initial selection in `initializeWebRTCDevices`,
lines 518-521, or re-selection in `validateOrSelectDevice`, lines
307-310, both of which evaluate `chooseDeviceId`), the chosen id is
that of the first device whose identifier is populated and neither
`'default'` nor the empty string (`isPreferredDevice`); if no such
device exists, the id of the first device of the list is chosen.  The
last conjunct ties the rule to the re-selection path. -/
theorem c9_preference_rule (audioDevices : List MediaDeviceInfo)
    (hne : audioDevices ≠ []) :
    (∀ i, i < audioDevices.length →
      isPreferredDevice (audioDevices.getD i default) = true →
      (∀ j, j < i → isPreferredDevice (audioDevices.getD j default) = false) →
      chooseDeviceId audioDevices = (audioDevices.getD i default).deviceId) ∧
    ((∀ d ∈ audioDevices, isPreferredDevice d = false) →
      chooseDeviceId audioDevices = (audioDevices.getD 0 default).deviceId) ∧
    chooseDeviceId audioDevices ∈ audioDevices.map (fun d => d.deviceId) ∧
    (∀ gum sel, selPresent sel audioDevices = false →
      validateOrSelectDevice gum audioDevices sel =
        .ok (testAudioDevice gum (some (chooseDeviceId audioDevices))
          (some (chooseDeviceId audioDevices)))) := by
  refine ⟨?_, ?_, chooseDeviceId_mem hne, ?_⟩
  · intro i hi hp hmin
    unfold chooseDeviceId
    rw [findFirst_eq_some default hi hp hmin]
  · intro hall
    unfold chooseDeviceId
    rw [findFirst_none_iff.mpr hall]
    cases audioDevices with
    | nil => exact absurd rfl hne
    | cons a as => rfl
  · intro gum sel hsel
    unfold validateOrSelectDevice
    rw [hsel]
    simp [List.isEmpty_iff, hne]

/-- C9 witness: with a `'default'` device first and a populated device
second, the second is chosen. -/
theorem c9_preference_rule_witness :
    chooseDeviceId [⟨"default", "audioinput", "Default"⟩, ⟨"mic1", "audioinput", "Mic"⟩]
      = "mic1" :=
  (c9_preference_rule
      [⟨"default", "audioinput", "Default"⟩, ⟨"mic1", "audioinput", "Mic"⟩]
      (by decide)).1 1 (by decide) (by decide)
    (fun j hj => by
      interval_cases j
      decide)

/-- C4: for every `deviceId` argument (including a nonexistent id)
`testAudioDevice` resolves and never rejects (it is a total function
into `Bool`): on a successful open it stores the truthy
settings-reported device id of the opened track, stops the stream and
resolves `true`; on failure with a truthy id it retries exactly once
with an unconstrained request (the call is literally the `deviceId =
null` call); only when the unconstrained request also fails does it
report a `DeviceAccessError` status and resolve `false`, leaving the
stored selection unchanged. -/
theorem c4_testAudioDevice (gum : Option String → GumResult) (sel : Option String)
    (deviceId : Option String) :
    (∀ sid, gum (constraintOf deviceId) = .ok sid →
      testAudioDevice gum sel deviceId =
        (true, if sid = "" then sel else some sid,
          [.openedStream (constraintOf deviceId), .stoppedStream])) ∧
    (∀ v e, deviceId = some v → v ≠ "" → gum (some v) = .err e →
      testAudioDevice gum sel deviceId = testAudioDevice gum sel none) ∧
    (∀ e, gum none = .err e →
      testAudioDevice gum sel none = (false, sel, [.status "DeviceAccessError"])) ∧
    ((testAudioDevice gum sel deviceId).1 = false →
      ∃ e, gum none = .err e ∧
        (testAudioDevice gum sel deviceId).2.1 = sel ∧
        (testAudioDevice gum sel deviceId).2.2 = [.status "DeviceAccessError"]) := by
  refine ⟨?_, ?_, ?_, ?_⟩
  · intro sid hok
    cases deviceId with
    | none => simp [testAudioDevice, hok]
    | some v => simp [testAudioDevice, hok]
  · intro v e hd hv herr
    subst hd
    have hc : constraintOf (some v) = some v := by simp [constraintOf, hv]
    simp [testAudioDevice, hc, herr, hv]
  · intro e herr
    simp [testAudioDevice, constraintOf, herr]
  · intro hfalse
    cases deviceId with
    | none =>
      cases hg : gum (constraintOf none) with
      | ok sid => simp [testAudioDevice, hg] at hfalse
      | err name =>
        refine ⟨name, by simpa [constraintOf] using hg, ?_, ?_⟩ <;>
          simp [testAudioDevice, hg]
    | some v =>
      cases hg : gum (constraintOf (some v)) with
      | ok sid => simp [testAudioDevice, hg] at hfalse
      | err name =>
        by_cases hv : v = ""
        · subst hv
          refine ⟨name, by simpa [constraintOf] using hg, ?_, ?_⟩ <;>
            simp [testAudioDevice, hg]
        · simp only [testAudioDevice, hg, hv, if_neg] at hfalse ⊢
          cases hg2 : gum (constraintOf none) with
          | ok sid => simp [testAudioDevice, hg2] at hfalse
          | err name2 =>
            refine ⟨name2, by simpa [constraintOf] using hg2, ?_, ?_⟩ <;>
              simp [testAudioDevice, hg2]

/-- C4 witness: an oracle that rejects every exact constraint but
resolves the unconstrained request: a nonexistent id resolves `true`
through the one unconstrained retry. -/
theorem c4_testAudioDevice_witness :
    (fun c => match c with
      | some _ => GumResult.err "OverconstrainedError"
      | none => GumResult.ok "mic1") (some "ghost") = .err "OverconstrainedError" ∧
    testAudioDevice
      (fun c => match c with
        | some _ => GumResult.err "OverconstrainedError"
        | none => GumResult.ok "mic1") none (some "ghost") =
    testAudioDevice
      (fun c => match c with
        | some _ => GumResult.err "OverconstrainedError"
        | none => GumResult.ok "mic1") none none :=
  ⟨rfl,
    (c4_testAudioDevice
      (fun c => match c with
        | some _ => GumResult.err "OverconstrainedError"
        | none => GumResult.ok "mic1") none (some "ghost")).2.1
      "ghost" "OverconstrainedError" rfl (by decide) rfl⟩

/-- C5: `selectAudioDevice` commits the requested id only after
validation succeeds: under the browser-consistency assumption
`settingsReported`, the stored selection changes to the requested id
only if the device is present in the enumerated audio inputs and
`testAudioDevice` resolves `true`; and if the device is present but
validation resolves `false`, the stored selection is left unchanged. -/
theorem c5_select_commits_only_validated (gum : Option String → GumResult)
    (enumDevices : List MediaDeviceInfo) (deviceId : String) (sel : Option String)
    (hg : settingsReported gum (enumDevices.filter (fun d => d.kind == "audioinput"))) :
    ((selectAudioDevice gum enumDevices deviceId sel).1 = some deviceId →
      sel ≠ some deviceId →
      deviceId ∈ (enumDevices.filter (fun d => d.kind == "audioinput")).map
        (fun d => d.deviceId) ∧
      (testAudioDevice gum sel (some deviceId)).1 = true) ∧
    (deviceId ∈ (enumDevices.filter (fun d => d.kind == "audioinput")).map
        (fun d => d.deviceId) →
      (testAudioDevice gum sel (some deviceId)).1 = false →
      (selectAudioDevice gum enumDevices deviceId sel).1 = sel) := by
  constructor
  · intro hres hne
    by_cases hid : deviceId = ""
    · exact absurd (by rw [← hres]; simp [selectAudioDevice, hid]) (Ne.symm hne)
    · by_cases hany : (enumDevices.filter (fun d => d.kind == "audioinput")).any
          (fun d => d.deviceId == deviceId) = true
      · by_cases ht : (testAudioDevice gum sel (some deviceId)).1 = true
        · exact ⟨any_deviceId_eq_iff.mp hany, ht⟩
        · exfalso
          have hf : (testAudioDevice gum sel (some deviceId)).1 = false :=
            Bool.eq_false_iff.mpr ht
          have hsel : (selectAudioDevice gum enumDevices deviceId sel).1 = sel := by
            simp [selectAudioDevice, hid, hany, hf,
              testAudioDevice_false_sel gum sel (some deviceId) hf]
          exact hne (by rw [← hsel, hres])
      · exfalso
        have hanyf : (enumDevices.filter (fun d => d.kind == "audioinput")).any
            (fun d => d.deviceId == deviceId) = false := Bool.eq_false_iff.mpr hany
        have hnotmem : deviceId ∉ (enumDevices.filter (fun d => d.kind == "audioinput")).map
            (fun d => d.deviceId) := fun hm => hany (any_deviceId_eq_iff.mpr hm)
        by_cases hsel : selPresent sel (enumDevices.filter (fun d => d.kind == "audioinput"))
            = true
        · have hres' : (selectAudioDevice gum enumDevices deviceId sel).1
              = (testAudioDevice gum sel sel).2.1 := by
            simp [selectAudioDevice, hid, hanyf, validateOrSelectDevice, hsel]
          rcases testAudioDevice_sel_cases gum sel sel with hc | ⟨c, sid, hok, hsne, heq⟩
          · exact hne (by rw [← hc, ← hres', hres])
          · have : sid = deviceId := by
              have := hres'.symm.trans hres
              rw [heq] at this
              exact Option.some_injective _ this
            exact hnotmem (this ▸ hg c sid hok hsne)
        · have hself : selPresent sel (enumDevices.filter (fun d => d.kind == "audioinput"))
              = false := Bool.eq_false_iff.mpr hsel
          by_cases hempty : (enumDevices.filter (fun d => d.kind == "audioinput")) = []
          · have hres' : (selectAudioDevice gum enumDevices deviceId sel).1 = sel := by
              simp [selectAudioDevice, hid, hanyf, validateOrSelectDevice, hself, hempty,
                selPresent_nil]
            exact hne (by rw [← hres', hres])
          · have hres' : (selectAudioDevice gum enumDevices deviceId sel).1
                = (testAudioDevice gum
                    (some (chooseDeviceId (enumDevices.filter (fun d => d.kind == "audioinput"))))
                    (some (chooseDeviceId (enumDevices.filter (fun d => d.kind == "audioinput"))))).2.1 := by
              simp [selectAudioDevice, hid, hanyf, validateOrSelectDevice, hself,
                List.isEmpty_iff, hempty]
            rcases testAudioDevice_sel_cases gum
                (some (chooseDeviceId (enumDevices.filter (fun d => d.kind == "audioinput"))))
                (some (chooseDeviceId (enumDevices.filter (fun d => d.kind == "audioinput"))))
              with hc | ⟨c, sid, hok, hsne, heq⟩
            · have : chooseDeviceId (enumDevices.filter (fun d => d.kind == "audioinput"))
                  = deviceId := by
                have := hres'.symm.trans hres
                rw [hc] at this
                exact Option.some_injective _ this
              exact hnotmem (this ▸ chooseDeviceId_mem hempty)
            · have : sid = deviceId := by
                have := hres'.symm.trans hres
                rw [heq] at this
                exact Option.some_injective _ this
              exact hnotmem (this ▸ hg c sid hok hsne)
  · intro hmem hfalse
    by_cases hid : deviceId = ""
    · simp [selectAudioDevice, hid]
    · have hany := any_deviceId_eq_iff.mpr hmem
      simp [selectAudioDevice, hid, hany, hfalse,
        testAudioDevice_false_sel gum sel (some deviceId) hfalse]

/-- C5 witness: a present device whose validation fails (the oracle
rejects everything) leaves the selection unchanged. -/
theorem c5_select_commits_only_validated_witness :
    "mic1" ∈ (List.filter (fun d => d.kind == "audioinput")
        ([⟨"mic1", "audioinput", "Mic"⟩] : List MediaDeviceInfo)).map
        (fun d => d.deviceId) ∧
    (selectAudioDevice (fun _ => GumResult.err "NotReadableError")
      [⟨"mic1", "audioinput", "Mic"⟩] "mic1" (some "old")).1 = some "old" :=
  ⟨by decide,
    (c5_select_commits_only_validated (fun _ => GumResult.err "NotReadableError")
      [⟨"mic1", "audioinput", "Mic"⟩] "mic1" (some "old")
      (fun c sid hok _ => by simp at hok)).2 (by decide)
      (by simp [testAudioDevice, constraintOf])⟩

/-- C2: after a device-change event runs `updateDeviceList` with
permission granted and the previously selected device id is absent from
the newly enumerated, non-empty audio-input list, the stored selected
device id becomes an id present in the new list (under the
browser-consistency assumption `settingsReported`), and it is computed
by committing the preference-rule choice `chooseDeviceId` — the same
rule as initial selection — and then validating it with
`testAudioDevice`. -/
theorem c2_devicechange_reselects (gum : Option String → GumResult)
    (enumDevices : List MediaDeviceInfo) (s : DevState)
    (hgr : s.deviceAccessGranted = true)
    (hg : settingsReported gum (enumDevices.filter (fun d => d.kind == "audioinput")))
    (hne : enumDevices.filter (fun d => d.kind == "audioinput") ≠ [])
    (habs : selPresent s.selectedAudioDeviceId
      (enumDevices.filter (fun d => d.kind == "audioinput")) = false) :
    (∃ id, (updateDeviceList gum enumDevices s).1.selectedAudioDeviceId = some id ∧
      id ∈ (enumDevices.filter (fun d => d.kind == "audioinput")).map
        (fun d => d.deviceId)) ∧
    (updateDeviceList gum enumDevices s).1.selectedAudioDeviceId =
      (testAudioDevice gum
        (some (chooseDeviceId (enumDevices.filter (fun d => d.kind == "audioinput"))))
        (some (chooseDeviceId (enumDevices.filter (fun d => d.kind == "audioinput"))))).2.1 := by
  have hv : validateOrSelectDevice gum (enumDevices.filter (fun d => d.kind == "audioinput"))
      s.selectedAudioDeviceId =
      .ok (testAudioDevice gum
        (some (chooseDeviceId (enumDevices.filter (fun d => d.kind == "audioinput"))))
        (some (chooseDeviceId (enumDevices.filter (fun d => d.kind == "audioinput"))))) := by
    simp [validateOrSelectDevice, habs, List.isEmpty_iff, hne]
  have hupd : (updateDeviceList gum enumDevices s).1.selectedAudioDeviceId =
      (testAudioDevice gum
        (some (chooseDeviceId (enumDevices.filter (fun d => d.kind == "audioinput"))))
        (some (chooseDeviceId (enumDevices.filter (fun d => d.kind == "audioinput"))))).2.1 := by
    simp [updateDeviceList, hgr, List.isEmpty_iff, hne, habs, hv]
  refine ⟨?_, hupd⟩
  rcases testAudioDevice_sel_cases gum
      (some (chooseDeviceId (enumDevices.filter (fun d => d.kind == "audioinput"))))
      (some (chooseDeviceId (enumDevices.filter (fun d => d.kind == "audioinput"))))
    with hc | ⟨c, sid, hok, hsne, heq⟩
  · exact ⟨chooseDeviceId (enumDevices.filter (fun d => d.kind == "audioinput")),
      by rw [hupd, hc], chooseDeviceId_mem hne⟩
  · exact ⟨sid, by rw [hupd, heq], hg c sid hok hsne⟩

/-- C2 witness: the previously selected id `gone` is absent from the
new single-device list; the stored id becomes `mic1`. -/
theorem c2_devicechange_reselects_witness :
    (updateDeviceList (fun _ => GumResult.err "NotFoundError")
      [⟨"mic1", "audioinput", "Mic"⟩]
      ⟨some "gone", true, none, none⟩).1.selectedAudioDeviceId = some "mic1" := by
  have h := c2_devicechange_reselects (fun _ => GumResult.err "NotFoundError")
    [⟨"mic1", "audioinput", "Mic"⟩] ⟨some "gone", true, none, none⟩ rfl
    (fun c sid hok _ => by simp at hok) (by decide) (by decide)
  rw [h.2]
  simp [testAudioDevice, constraintOf, chooseDeviceId, findFirst, isPreferredDevice]

theorem updateDeviceList_granted (gum : Option String → GumResult)
    (devices : List MediaDeviceInfo) (s : DevState) :
    (updateDeviceList gum devices s).1.deviceAccessGranted = s.deviceAccessGranted := by
  unfold updateDeviceList
  dsimp only
  repeat' split
  all_goals rfl

theorem initializeWebRTCDevices_granted (gum : Option String → GumResult)
    (enum1 enum2 : List MediaDeviceInfo) (s : DevState) :
    (initializeWebRTCDevices gum enum1 enum2 s).1.deviceAccessGranted
      = s.deviceAccessGranted := by
  unfold initializeWebRTCDevices
  dsimp only
  repeat' split
  all_goals rfl

theorem pageStep_granted (e : PageEvent) (s : DevState) :
    (pageStep e s).1.deviceAccessGranted = s.deviceAccessGranted := by
  cases e with
  | domLoaded enum1 enum2 gum => exact initializeWebRTCDevices_granted gum enum1 enum2 s
  | retryDetection enum1 enum2 gum => exact initializeWebRTCDevices_granted gum enum1 enum2 s
  | deviceChange devices gum => exact updateDeviceList_granted gum devices s
  | selectDeviceMessage deviceId devices gum => rfl

theorem pageRun_granted (events : List PageEvent) :
    (pageRun events).deviceAccessGranted = false := by
  suffices h : ∀ s : DevState,
      (events.foldl (fun s e => (pageStep e s).1) s).deviceAccessGranted
        = s.deviceAccessGranted by
    exact h initDevState
  induction events with
  | nil => intro s; rfl
  | cons e es ih =>
    intro s
    rw [List.foldl_cons, ih, pageStep_granted]

/-- C3: in the shipped script the second top-level declaration of
`initializeWebRTCDevices` (lines 411-608) shadows the first (lines
182-207) — in this embedding the live binding `initializeWebRTCDevices`
is the second declaration, and `handlePermissionGranted` is referenced
only by the dead first declaration (`initializeWebRTCDevices_v1`), so
it is never invoked.  Consequently: along every sequence of page events
the flag `deviceAccessGranted` stays `false`; every invocation of
`updateDeviceList` returns before enumerating devices (state unchanged,
no events at all, in particular no enumeration); device-change events
never modify the selected device id.  The last conjunct records that
the dead `handlePermissionGranted` is the (only) writer that would have
set the flag. -/
theorem c3_shadowing_consequences :
    (∀ events : List PageEvent, (pageRun events).deviceAccessGranted = false) ∧
    (∀ (events : List PageEvent) (gum : Option String → GumResult)
        (devices : List MediaDeviceInfo),
      updateDeviceList gum devices (pageRun events) = (pageRun events, [])) ∧
    (∀ (events : List PageEvent) (devices : List MediaDeviceInfo)
        (gum : Option String → GumResult),
      (pageStep (.deviceChange devices gum) (pageRun events)).1.selectedAudioDeviceId
        = (pageRun events).selectedAudioDeviceId) ∧
    (∀ (gum : Option String → GumResult) (trackSettingsId : String)
        (enumDevices : List MediaDeviceInfo) (s : DevState),
      (handlePermissionGranted gum trackSettingsId enumDevices s).1.deviceAccessGranted
        = true) := by
  have hupd : ∀ (events : List PageEvent) (gum : Option String → GumResult)
      (devices : List MediaDeviceInfo),
      updateDeviceList gum devices (pageRun events) = (pageRun events, []) := by
    intro events gum devices
    unfold updateDeviceList
    rw [pageRun_granted events]
    rfl
  refine ⟨pageRun_granted, hupd, ?_, ?_⟩
  · intro events devices gum
    show (updateDeviceList gum devices (pageRun events)).1.selectedAudioDeviceId = _
    rw [hupd events gum devices]
  · intro gum trackSettingsId enumDevices s
    unfold handlePermissionGranted
    dsimp only
    repeat' split
    all_goals rfl

/-- C10: any exception raised while parsing or dispatching an inbound
window message (malformed JSON included) is caught by the handler's
`try`/`catch`, logged, and does not propagate (the handler is a total
function); a message whose parse or dispatch throws contributes exactly
one error log and nothing else, so the processing of all other messages
in the sequence is unaffected. -/
theorem c10_malformed_messages_contained (parse : String → ParseOutcome)
    (raw : String) (st : MsgHandlerState) :
    (∀ e, parse raw = .fail e →
      handleWindowMessage parse raw st
        = { st with errorsLogged := st.errorsLogged + 1 }) ∧
    (∀ m e, parse raw = .ok m → dispatchMessage raw m = .error e →
      handleWindowMessage parse raw st
        = { st with errorsLogged := st.errorsLogged + 1 }) ∧
    (∀ xs ys : List String,
      ((∃ e, parse raw = .fail e) ∨
       (∃ m e, parse raw = .ok m ∧ dispatchMessage raw m = .error e)) →
      processMessages parse (xs ++ raw :: ys) st =
        processMessages parse ys
          { processMessages parse xs st with
            errorsLogged := (processMessages parse xs st).errorsLogged + 1 }) := by
  refine ⟨?_, ?_, ?_⟩
  · intro e hp
    simp [handleWindowMessage, hp]
  · intro m e hp hd
    simp [handleWindowMessage, hp, hd]
  · intro xs ys hbad
    unfold processMessages
    rw [List.foldl_append, List.foldl_cons]
    have hmid : handleWindowMessage parse raw
        (xs.foldl (fun s r => handleWindowMessage parse r s) st)
        = { xs.foldl (fun s r => handleWindowMessage parse r s) st with
            errorsLogged :=
              (xs.foldl (fun s r => handleWindowMessage parse r s) st).errorsLogged + 1 } := by
      rcases hbad with ⟨e, hp⟩ | ⟨m, e, hp, hd⟩
      · simp [handleWindowMessage, hp]
      · simp [handleWindowMessage, hp, hd]
    rw [hmid]

/-- C10 witness: a malformed message between two well-formed (here
falsy-parsing) ones contributes exactly one error log. -/
theorem c10_malformed_messages_contained_witness :
    (fun r => if r = "bad" then ParseOutcome.fail "SyntaxError" else ParseOutcome.nullish)
        "bad" = ParseOutcome.fail "SyntaxError" ∧
    processMessages
        (fun r => if r = "bad" then ParseOutcome.fail "SyntaxError" else ParseOutcome.nullish)
        (["x"] ++ "bad" :: ["y"]) ⟨[], 0⟩ =
      processMessages
        (fun r => if r = "bad" then ParseOutcome.fail "SyntaxError" else ParseOutcome.nullish)
        ["y"]
        { processMessages
            (fun r => if r = "bad" then ParseOutcome.fail "SyntaxError" else ParseOutcome.nullish)
            ["x"] ⟨[], 0⟩ with
          errorsLogged :=
            (processMessages
              (fun r => if r = "bad" then ParseOutcome.fail "SyntaxError" else ParseOutcome.nullish)
              ["x"] ⟨[], 0⟩).errorsLogged + 1 } :=
  ⟨by decide,
    (c10_malformed_messages_contained
        (fun r => if r = "bad" then ParseOutcome.fail "SyntaxError" else ParseOutcome.nullish)
        "bad" ⟨[], 0⟩).2.2 ["x"] ["y"] (Or.inl ⟨"SyntaxError", by decide⟩)⟩

end PureCloudExample
